import Mathlib

/-
Shallow embedding of src/MiniBancoFinal.py (a small bank-account simulator).

Modelling conventions:
* Monetary amounts (`_saldo`, `monto`) are Python floats in the source; they are
  embedded as exact rationals (ℚ), which matches the arithmetic structure of the
  code (sums, differences, products by a constant rate).
* `datetime.now().strftime(...)` is a wall-clock read; each mutating operation
  takes the produced timestamp string `fecha` as an explicit argument.
* A history tuple `(fecha, tipo, monto_str)` stores the display string
  `f"±S/. {monto:.2f}"` in its third slot; the display string is embedded by its
  content, a sign and the amount (`Signo` × ℚ).
* Python raises `ValueError` with a message built from an f-string; errors are
  embedded as an inductive type whose constructors carry exactly the values the
  corresponding f-string interpolates.
* Python mutation is embedded as state passing: an operation on `Cuenta`
  returns `Option <error> × Cuenta` — the error raised (if any) together with
  the state of the object after the call, since a raise after a partial
  mutation leaves the mutation in place (relevant for `transferir`).
-/

namespace MiniBanco

/-- Timestamp string produced by `datetime.now().strftime('%Y-%m-%d %H:%M:%S')`. -/
abbrev Fecha := String

/-- Sign of the stored display amount string: `+S/. ...` or `-S/. ...`. -/
inductive Signo where
  | mas
  | menos
deriving DecidableEq

/-- One entry of `Cuenta.historial`: the tuple `(fecha, tipo, monto_str)`, with
the display string `monto_str = f"±S/. {monto:.2f}"` represented by its sign
and amount. -/
structure Transaccion where
  fecha : Fecha
  tipo : String
  signo : Signo
  monto : ℚ
deriving DecidableEq

/-- The concrete class of an account: `CuentaAhorro` or `CuentaCorriente`.
In the application accounts are only ever constructed through these two
subclasses (lines 140, 142, 354 of the source), never as the bare base class. -/
inductive TipoCuenta where
  | ahorro
  | corriente
deriving DecidableEq

/-- The state of a `Cuenta` object: `numero`, `titular`, the encapsulated
`_saldo`, the in-memory `historial`, plus the subclass it was built as. -/
structure Cuenta where
  numero : String
  titular : String
  tipo : TipoCuenta
  saldo : ℚ
  historial : List Transaccion
deriving DecidableEq

/-- The `ValueError`s raised by the ledger methods of `Cuenta`, one constructor
per distinct f-string message; `saldoInsuficiente` carries the two values the
message interpolates (`self._saldo` and `monto`). -/
inductive BancoError where
  | montoInvalidoDeposito
  | montoInvalidoRetiro
  | saldoInsuficiente (saldoActual : ℚ) (monto : ℚ)
deriving DecidableEq

/-- `Cuenta._registrar_transaccion`: appends `(fecha, tipo, monto_str)` to the
in-memory `historial`. -/
def Cuenta.registrarTransaccion (c : Cuenta) (fecha : Fecha) (tipo : String)
    (signo : Signo) (monto : ℚ) : Cuenta :=
  { c with historial := c.historial ++ [⟨fecha, tipo, signo, monto⟩] }

/-- `Cuenta.depositar`: rejects `monto <= 0`, otherwise adds to `_saldo` and
records `("Depósito", f"+S/. {monto:.2f}")`. -/
def Cuenta.depositar (c : Cuenta) (monto : ℚ) (fecha : Fecha) :
    Option BancoError × Cuenta :=
  if monto ≤ 0 then
    (some .montoInvalidoDeposito, c)
  else
    (none, ({ c with saldo := c.saldo + monto }).registrarTransaccion
      fecha "Depósito" .mas monto)

/-- `Cuenta.retirar`: rejects `monto <= 0`, then `monto > self._saldo` (the
error carrying the current balance and the requested amount), otherwise
subtracts from `_saldo` and records `("Retiro", f"-S/. {monto:.2f}")`. -/
def Cuenta.retirar (c : Cuenta) (monto : ℚ) (fecha : Fecha) :
    Option BancoError × Cuenta :=
  if monto ≤ 0 then
    (some .montoInvalidoRetiro, c)
  else if c.saldo < monto then
    (some (.saldoInsuficiente c.saldo monto), c)
  else
    (none, ({ c with saldo := c.saldo - monto }).registrarTransaccion
      fecha "Retiro" .menos monto)

/-- `Cuenta.transferir`: `self.retirar(monto)`, then `destino.depositar(monto)`,
then the two explicit transfer records. An exception propagates immediately,
keeping whatever mutations the earlier sub-calls already made. -/
def Cuenta.transferir (origen destino : Cuenta) (monto : ℚ) (fecha : Fecha) :
    Option BancoError × Cuenta × Cuenta :=
  match origen.retirar monto fecha with
  | (some e, origen1) => (some e, origen1, destino)
  | (none, origen1) =>
    match destino.depositar monto fecha with
    | (some e, destino1) => (some e, origen1, destino1)
    | (none, destino1) =>
      (none,
       origen1.registrarTransaccion fecha
         ("Transferencia a " ++ destino.numero) .menos monto,
       destino1.registrarTransaccion fecha
         ("Transferencia de " ++ origen.numero) .mas monto)

/-- `CuentaAhorro.aplicar_interes` / `CuentaCorriente.aplicar_interes`:
computes `interes_ganado = _saldo * (tasa_anual / 12)` with `tasa_anual` 0.01
for Ahorro and 0.0005 for Corriente, adds it to `_saldo`, and records
`("Interés (<tipo>)", f"+S/. {interes_ganado:.2f}")`. Raises nothing. -/
def Cuenta.aplicarInteres (c : Cuenta) (fecha : Fecha) : Cuenta :=
  match c.tipo with
  | .ahorro =>
    let tasaMensual : ℚ := 0.01 / 12
    let interesGanado := c.saldo * tasaMensual
    ({ c with saldo := c.saldo + interesGanado }).registrarTransaccion
      fecha "Interés (Ahorro)" .mas interesGanado
  | .corriente =>
    let tasaMensual : ℚ := 0.0005 / 12
    let interesGanado := c.saldo * tasaMensual
    ({ c with saldo := c.saldo + interesGanado }).registrarTransaccion
      fecha "Interés (Corriente)" .mas interesGanado

/-- The monthly rate `tasa_anual / 12` used by each subclass's
`aplicar_interes` (0.01 for `CuentaAhorro`, 0.0005 for `CuentaCorriente`). -/
def tasaMensualDe : TipoCuenta → ℚ
  | .ahorro => 0.01 / 12
  | .corriente => 0.0005 / 12

/-- The history label each subclass's `aplicar_interes` writes. -/
def etiquetaInteres : TipoCuenta → String
  | .ahorro => "Interés (Ahorro)"
  | .corriente => "Interés (Corriente)"

/-- The global dict `cuentas = {}`, embedded as an association list with
Python-dict semantics (first binding of a key is the live one; `dictInsert`
overwrites in place or appends at the end, matching insertion-ordered dicts). -/
abbrev Registro := List (String × Cuenta)

/-- Lookup `cuentas[numero]` / `numero in cuentas`. -/
def dictFind : Registro → String → Option Cuenta
  | [], _ => none
  | (k, v) :: rest, numero => if k = numero then some v else dictFind rest numero

/-- Assignment `cuentas[numero] = cuenta`. -/
def dictInsert : Registro → String → Cuenta → Registro
  | [], numero, cuenta => [(numero, cuenta)]
  | (k, v) :: rest, numero, cuenta =>
    if k = numero then (numero, cuenta) :: rest
    else (k, v) :: dictInsert rest numero cuenta

/-- The `ValueError`s raised by `BancaApp._crear_cuenta`, one constructor per
distinct message, in source order. The two checks on the raw saldo string
(emptiness and `float` parsing) are below the granularity of this embedding,
which takes the already parsed `saldo : ℚ`. -/
inductive ErrorValidacion where
  | numeroVacio
  | titularVacio
  | numeroInvalido
  | titularInvalido
  | saldoNegativo
  | cuentaYaExiste
deriving DecidableEq

/-- Character class `[A-Za-zÁÉÍÓÚñáéíóú]` of the titular regex (note: no `Ñ`). -/
def esLetraNombre (c : Char) : Bool :=
  (('A' ≤ c && c ≤ 'Z') || ('a' ≤ c && c ≤ 'z')) ||
    c ∈ ['Á', 'É', 'Í', 'Ó', 'Ú', 'ñ', 'á', 'é', 'í', 'ó', 'ú']

/-- `re.match(r"^\d{10}$", numero)`: exactly 10 digit characters (`\d` is
embedded as the decimal digits 0-9). -/
def numeroValido (numero : String) : Bool :=
  numero.length == 10 && numero.toList.all Char.isDigit

/-- Splitting a character list on the space character (the semantics of
`str.split(" ")`-style grouping used to read the titular regex): adjacent,
leading, or trailing spaces yield empty groups. -/
def partirEnEspacios : List Char → List (List Char)
  | [] => [[]]
  | c :: rest =>
    match partirEnEspacios rest with
    | [] => [[]]
    | p :: ps => if c = ' ' then [] :: p :: ps else (c :: p) :: ps

/-- `re.match(r"^[A-Za-zÁÉÍÓÚñáéíóú]+( [A-Za-zÁÉÍÓÚñáéíóú]+)+$", titular)`:
two or more nonempty letter words separated by single spaces. -/
def titularValido (titular : String) : Bool :=
  let partes := partirEnEspacios titular.toList
  decide (2 ≤ partes.length) &&
    partes.all (fun p => decide (p ≠ []) && p.all esLetraNombre)

/-- `BancaApp._crear_cuenta`, restricted to its registry effect: the argument
strings are the already `.strip()`-ped widget texts and `saldo` the already
parsed float. Checks run in source order; any raise leaves `cuentas` untouched
because the insertion is the last step. The database insert
(`add_new_account_to_db`) is persistence plumbing outside this model. -/
def crearCuenta (cuentas : Registro) (numero titular : String) (saldo : ℚ)
    (tipo : TipoCuenta) : Option ErrorValidacion × Registro :=
  if numero = "" then (some .numeroVacio, cuentas)
  else if titular = "" then (some .titularVacio, cuentas)
  else if ¬ numeroValido numero then (some .numeroInvalido, cuentas)
  else if ¬ titularValido titular then (some .titularInvalido, cuentas)
  else if saldo < 0 then (some .saldoNegativo, cuentas)
  else if (dictFind cuentas numero).isSome then (some .cuentaYaExiste, cuentas)
  else (none, dictInsert cuentas numero ⟨numero, titular, tipo, saldo, []⟩)

/-- One user action of the operations frame, with the wall-clock timestamp the
action would stamp on its history records. -/
inductive Operacion where
  | deposito (numero : String) (monto : ℚ) (fecha : Fecha)
  | retiro (numero : String) (monto : ℚ) (fecha : Fecha)
  | transferencia (numero destino : String) (monto : ℚ) (fecha : Fecha)
  | interes (numero : String) (fecha : Fecha)

/-- `BancaApp._realizar_operacion`, restricted to its effect on the `cuentas`
dict: lookup failures, the self-transfer guard, and raised `ValueError`s leave
the dict unchanged except for mutations a sub-call already made (the object in
the dict is mutated in place in Python, embedded here by writing the returned
account state back under its key). -/
def realizarOperacion (cuentas : Registro) (op : Operacion) : Registro :=
  match op with
  | .deposito numero monto fecha =>
    match dictFind cuentas numero with
    | none => cuentas
    | some origen => dictInsert cuentas numero (origen.depositar monto fecha).2
  | .retiro numero monto fecha =>
    match dictFind cuentas numero with
    | none => cuentas
    | some origen => dictInsert cuentas numero (origen.retirar monto fecha).2
  | .transferencia numero destino monto fecha =>
    match dictFind cuentas numero with
    | none => cuentas
    | some origen =>
      match dictFind cuentas destino with
      | none => cuentas
      | some cuentaDestino =>
        if numero = destino then cuentas
        else
          let r := origen.transferir cuentaDestino monto fecha
          dictInsert (dictInsert cuentas numero r.2.1) destino r.2.2
  | .interes numero fecha =>
    match dictFind cuentas numero with
    | none => cuentas
    | some origen => dictInsert cuentas numero (origen.aplicarInteres fecha)

/-- A sequence of user actions applied to the registry in order. -/
def ejecutar (cuentas : Registro) (ops : List Operacion) : Registro :=
  ops.foldl realizarOperacion cuentas

/-- A row of the `cuentas` table: `(numero, titular, saldo, tipo)`, with `tipo`
the stored kind string. -/
structure Fila where
  numero : String
  titular : String
  saldo : ℚ
  tipo : String
deriving DecidableEq

/-- The unhandled `NameError`/`UnboundLocalError` that escapes
`load_accounts_from_db` when `cuentas[numero] = cuenta` runs with the local
variable `cuenta` never having been bound. -/
inductive ErrorCarga where
  | variableNoDefinida
deriving DecidableEq

/-- Loop body chain of `BancaApp.load_accounts_from_db`. The parameter `prev`
is the binding of the Python local `cuenta` left over from earlier iterations:
when the row kind matches neither branch, the insertion reads that leftover
binding, and crashes only when there is none. The per-account history query is
the function `hist`; in Python the history rows are appended after the dict
insertion onto the same object, which this value-level embedding renders by
appending before inserting (in the leftover-binding branch the copy stored
under the earlier key does not see the later appends — reference aliasing is
not modelled; no claim here depends on it). -/
def loadGo (hist : String → List Transaccion) :
    List Fila → Option Cuenta → Registro → Except ErrorCarga Registro
  | [], _, acc => .ok acc
  | fila :: rest, prev, acc =>
    let construida : Option Cuenta :=
      if fila.tipo = "Ahorro" then
        some ⟨fila.numero, fila.titular, .ahorro, fila.saldo, []⟩
      else if fila.tipo = "Corriente" then
        some ⟨fila.numero, fila.titular, .corriente, fila.saldo, []⟩
      else prev
    match construida with
    | none => .error .variableNoDefinida
    | some cuenta =>
      let cuenta := { cuenta with historial := cuenta.historial ++ hist fila.numero }
      loadGo hist rest (some cuenta) (dictInsert acc fila.numero cuenta)

/-- `BancaApp.load_accounts_from_db`: folds the stored rows into the global
dict, starting with the local `cuenta` unbound. -/
def loadAccountsFromDb (hist : String → List Transaccion) (filas : List Fila) :
    Except ErrorCarga Registro :=
  loadGo hist filas none []

/-- Whether a load attempt completed without an unhandled error. -/
def cargaExitosa : Except ErrorCarga Registro → Bool
  | .ok _ => true
  | .error _ => false

/-- Every account stored in the registry has a non-negative balance. -/
def saldosNoNegativos (cuentas : Registro) : Prop :=
  ∀ p ∈ cuentas, 0 ≤ (p.2 : Cuenta).saldo

@[simp]
theorem registrar_saldo (c : Cuenta) (f : Fecha) (t : String) (s : Signo) (m : ℚ) :
    (c.registrarTransaccion f t s m).saldo = c.saldo := rfl

@[simp]
theorem registrar_numero (c : Cuenta) (f : Fecha) (t : String) (s : Signo) (m : ℚ) :
    (c.registrarTransaccion f t s m).numero = c.numero := rfl

@[simp]
theorem registrar_titular (c : Cuenta) (f : Fecha) (t : String) (s : Signo) (m : ℚ) :
    (c.registrarTransaccion f t s m).titular = c.titular := rfl

@[simp]
theorem registrar_tipo (c : Cuenta) (f : Fecha) (t : String) (s : Signo) (m : ℚ) :
    (c.registrarTransaccion f t s m).tipo = c.tipo := rfl

@[simp]
theorem registrar_historial (c : Cuenta) (f : Fecha) (t : String) (s : Signo) (m : ℚ) :
    (c.registrarTransaccion f t s m).historial = c.historial ++ [⟨f, t, s, m⟩] := rfl

theorem depositar_ok (c : Cuenta) (m : ℚ) (f : Fecha) (hm : 0 < m) :
    c.depositar m f = (none, ({ c with saldo := c.saldo + m }).registrarTransaccion
      f "Depósito" .mas m) := by
  unfold Cuenta.depositar
  rw [if_neg (not_le.mpr hm)]

theorem retirar_ok (c : Cuenta) (m : ℚ) (f : Fecha) (hm : 0 < m) (hs : m ≤ c.saldo) :
    c.retirar m f = (none, ({ c with saldo := c.saldo - m }).registrarTransaccion
      f "Retiro" .menos m) := by
  unfold Cuenta.retirar
  rw [if_neg (not_le.mpr hm), if_neg (not_lt.mpr hs)]

theorem retirar_error_sinCambio (c : Cuenta) (m : ℚ) (f : Fecha)
    (h : (c.retirar m f).1.isSome = true) : (c.retirar m f).2 = c := by
  unfold Cuenta.retirar at *
  split_ifs at h ⊢ <;> simp_all

theorem retirar_ok_montoPos (c : Cuenta) (m : ℚ) (f : Fecha)
    (h : (c.retirar m f).1 = none) : 0 < m := by
  unfold Cuenta.retirar at h
  split_ifs at h with h1 h2
  exact not_le.mp h1

theorem depositar_saldo_nonneg (c : Cuenta) (m : ℚ) (f : Fecha) (h : 0 ≤ c.saldo) :
    0 ≤ ((c.depositar m f).2).saldo := by
  unfold Cuenta.depositar
  split_ifs with h1
  · exact h
  · simpa using by linarith [not_le.mp h1]

theorem retirar_saldo_nonneg (c : Cuenta) (m : ℚ) (f : Fecha) (h : 0 ≤ c.saldo) :
    0 ≤ ((c.retirar m f).2).saldo := by
  unfold Cuenta.retirar
  split_ifs with h1 h2
  · exact h
  · exact h
  · simpa using by linarith [not_lt.mp h2]

theorem aplicarInteres_saldo_nonneg (c : Cuenta) (f : Fecha) (h : 0 ≤ c.saldo) :
    0 ≤ (c.aplicarInteres f).saldo := by
  unfold Cuenta.aplicarInteres
  cases c.tipo <;> simp <;> nlinarith

theorem transferir_saldos_nonneg (origen destino : Cuenta) (m : ℚ) (f : Fecha)
    (ho : 0 ≤ origen.saldo) (hd : 0 ≤ destino.saldo) :
    0 ≤ (origen.transferir destino m f).2.1.saldo ∧
      0 ≤ (origen.transferir destino m f).2.2.saldo := by
  unfold Cuenta.transferir
  rcases h1 : origen.retirar m f with ⟨e1, o1⟩
  have ho1 : 0 ≤ o1.saldo := by
    have := retirar_saldo_nonneg origen m f ho
    rwa [h1] at this
  cases e1 with
  | some e => exact ⟨ho1, hd⟩
  | none =>
    rcases h2 : destino.depositar m f with ⟨e2, d1⟩
    have hd1 : 0 ≤ d1.saldo := by
      have := depositar_saldo_nonneg destino m f hd
      rwa [h2] at this
    cases e2 with
    | some e => exact ⟨ho1, hd1⟩
    | none => simpa using ⟨ho1, hd1⟩

theorem mem_dictInsert {d : Registro} {k : String} {v : Cuenta} {p : String × Cuenta}
    (h : p ∈ dictInsert d k v) : p ∈ d ∨ p = (k, v) := by
  induction d with
  | nil => simpa [dictInsert] using h
  | cons hd tl ih =>
    obtain ⟨ka, va⟩ := hd
    by_cases hk : ka = k
    · simp only [dictInsert, if_pos hk] at h
      rcases List.mem_cons.mp h with h | h
      · exact Or.inr h
      · exact Or.inl (List.mem_cons_of_mem _ h)
    · simp only [dictInsert, if_neg hk] at h
      rcases List.mem_cons.mp h with h | h
      · exact Or.inl (h ▸ List.mem_cons_self _ _)
      · rcases ih h with h | h
        · exact Or.inl (List.mem_cons_of_mem _ h)
        · exact Or.inr h

theorem dictFind_mem {d : Registro} {k : String} {c : Cuenta}
    (h : dictFind d k = some c) : (k, c) ∈ d := by
  induction d with
  | nil => simp [dictFind] at h
  | cons hd tl ih =>
    obtain ⟨ka, va⟩ := hd
    by_cases hk : ka = k
    · simp only [dictFind, if_pos hk] at h
      subst hk
      obtain rfl : va = c := Option.some.inj h
      exact List.mem_cons_self _ _
    · simp only [dictFind, if_neg hk] at h
      exact List.mem_cons_of_mem _ (ih h)

theorem realizarOperacion_preserva (d : Registro) (op : Operacion)
    (h : saldosNoNegativos d) : saldosNoNegativos (realizarOperacion d op) := by
  cases op with
  | deposito numero monto fecha =>
    simp only [realizarOperacion]
    cases hf : dictFind d numero with
    | none => exact h
    | some origen =>
      intro p hp
      rcases mem_dictInsert hp with hin | rfl
      · exact h p hin
      · exact depositar_saldo_nonneg origen monto fecha (h _ (dictFind_mem hf))
  | retiro numero monto fecha =>
    simp only [realizarOperacion]
    cases hf : dictFind d numero with
    | none => exact h
    | some origen =>
      intro p hp
      rcases mem_dictInsert hp with hin | rfl
      · exact h p hin
      · exact retirar_saldo_nonneg origen monto fecha (h _ (dictFind_mem hf))
  | transferencia numero destino monto fecha =>
    simp only [realizarOperacion]
    cases hf : dictFind d numero with
    | none => exact h
    | some origen =>
      cases hg : dictFind d destino with
      | none => exact h
      | some cuentaDestino =>
        split_ifs with heq
        · exact h
        · intro p hp
          have hnn := transferir_saldos_nonneg origen cuentaDestino monto fecha
            (h _ (dictFind_mem hf)) (h _ (dictFind_mem hg))
          rcases mem_dictInsert hp with hp1 | rfl
          · rcases mem_dictInsert hp1 with hin | rfl
            · exact h p hin
            · exact hnn.1
          · exact hnn.2
  | interes numero fecha =>
    simp only [realizarOperacion]
    cases hf : dictFind d numero with
    | none => exact h
    | some origen =>
      intro p hp
      rcases mem_dictInsert hp with hin | rfl
      · exact h p hin
      · exact aplicarInteres_saldo_nonneg origen fecha (h _ (dictFind_mem hf))

/-- C1: starting from a registry whose accounts all have non-negative balance,
every sequence of deposit, withdraw, transfer, and apply-interest operations
keeps every balance non-negative (prefix closure follows because every prefix
of a sequence is itself a sequence). -/
theorem saldoNoNegativoInvariante (cuentas : Registro) (ops : List Operacion)
    (h : saldosNoNegativos cuentas) : saldosNoNegativos (ejecutar cuentas ops) := by
  induction ops generalizing cuentas with
  | nil => exact h
  | cons op rest ih => exact ih _ (realizarOperacion_preserva cuentas op h)

/-- Witness for C1 at a concrete two-account registry and a concrete
deposit-withdraw-transfer-interest sequence. -/
theorem saldoNoNegativoInvariante_witness :
    saldosNoNegativos (ejecutar
      [("1000000001", ⟨"1000000001", "Ana Perez", .ahorro, 100, []⟩),
       ("1000000002", ⟨"1000000002", "Luis Ramos", .corriente, 0, []⟩)]
      [.deposito "1000000001" 50 "f1", .retiro "1000000001" 200 "f2",
       .transferencia "1000000001" "1000000002" 30 "f3", .interes "1000000001" "f4"]) :=
  saldoNoNegativoInvariante _ _ (by
    intro p hp
    rcases List.mem_cons.mp hp with rfl | hp
    · norm_num
    · rcases List.mem_cons.mp hp with rfl | hp
      · norm_num
      · simp at hp)

/-- C2: withdrawing an amount that is positive but exceeds the current balance
raises the insufficient-funds error — whose message interpolates the current
balance and the requested amount — and returns the account unchanged. -/
theorem retiroSaldoInsuficiente (c : Cuenta) (m : ℚ) (f : Fecha)
    (hm : 0 < m) (hs : c.saldo < m) :
    c.retirar m f = (some (.saldoInsuficiente c.saldo m), c) := by
  unfold Cuenta.retirar
  rw [if_neg (not_le.mpr hm), if_pos hs]

/-- Witness for C2: withdrawing 200 from a balance of 150. -/
theorem retiroSaldoInsuficiente_witness :
    Cuenta.retirar ⟨"1000000001", "Ana Perez", .ahorro, 150, []⟩ 200 "2024-01-01 00:00:00" =
      (some (.saldoInsuficiente 150 200), ⟨"1000000001", "Ana Perez", .ahorro, 150, []⟩) :=
  retiroSaldoInsuficiente _ 200 _ (by norm_num) (by norm_num)

/-- C4: apply-interest is a total operation (the embedding returns a `Cuenta`,
never an error); it sets the balance to B + B·(0.01/12) on a Savings account
and to B + B·(0.0005/12) on a Checking account, and appends exactly one
history record, labelled with the account kind and carrying the earned
interest. -/
theorem aplicarInteresTotal (c : Cuenta) (f : Fecha) :
    (c.aplicarInteres f).saldo = c.saldo + c.saldo * tasaMensualDe c.tipo ∧
    (c.aplicarInteres f).historial = c.historial ++
      [⟨f, etiquetaInteres c.tipo, .mas, c.saldo * tasaMensualDe c.tipo⟩] := by
  unfold Cuenta.aplicarInteres tasaMensualDe etiquetaInteres
  cases c.tipo <;> simp

/-- C5: a deposit of a positive amount followed by a withdrawal of the same
amount (on an account satisfying the balance invariant) restores the balance
exactly and appends exactly two history records. -/
theorem depositoLuegoRetiroNeutral (c : Cuenta) (m : ℚ) (f1 f2 : Fecha)
    (hs : 0 ≤ c.saldo) (hm : 0 < m) :
    ((c.depositar m f1).2.retirar m f2).2.saldo = c.saldo ∧
    ((c.depositar m f1).2.retirar m f2).2.historial = c.historial ++
      [⟨f1, "Depósito", .mas, m⟩, ⟨f2, "Retiro", .menos, m⟩] := by
  rw [depositar_ok c m f1 hm]
  have hsimp : (({ c with saldo := c.saldo + m }).registrarTransaccion
      f1 "Depósito" .mas m).saldo = c.saldo + m := rfl
  rw [retirar_ok _ m f2 hm (by rw [hsimp]; linarith)]
  constructor
  · simp
  · simp

/-- Witness for C5: deposit 50 then withdraw 50 on a balance of 100. -/
theorem depositoLuegoRetiroNeutral_witness :
    ((Cuenta.depositar ⟨"1000000001", "Ana Perez", .ahorro, 100, []⟩ 50 "f1").2.retirar
        50 "f2").2.saldo = 100 ∧
    ((Cuenta.depositar ⟨"1000000001", "Ana Perez", .ahorro, 100, []⟩ 50 "f1").2.retirar
        50 "f2").2.historial =
      [] ++ [⟨"f1", "Depósito", .mas, 50⟩, ⟨"f2", "Retiro", .menos, 50⟩] :=
  depositoLuegoRetiroNeutral _ 50 "f1" "f2" (by norm_num) (by norm_num)

/-- C6: a non-positive amount is rejected by both deposit and withdraw with
the invalid-amount error, returning the account unchanged. -/
theorem montoNoPositivoRechazado (c : Cuenta) (m : ℚ) (f : Fecha) (hm : m ≤ 0) :
    c.depositar m f = (some .montoInvalidoDeposito, c) ∧
    c.retirar m f = (some .montoInvalidoRetiro, c) := by
  constructor
  · unfold Cuenta.depositar
    rw [if_pos hm]
  · unfold Cuenta.retirar
    rw [if_pos hm]

/-- Witness for C6: depositing and withdrawing 0. -/
theorem montoNoPositivoRechazado_witness :
    Cuenta.depositar ⟨"1000000001", "Ana Perez", .ahorro, 100, []⟩ 0 "f" =
      (some .montoInvalidoDeposito, ⟨"1000000001", "Ana Perez", .ahorro, 100, []⟩) ∧
    Cuenta.retirar ⟨"1000000001", "Ana Perez", .ahorro, 100, []⟩ 0 "f" =
      (some .montoInvalidoRetiro, ⟨"1000000001", "Ana Perez", .ahorro, 100, []⟩) :=
  montoNoPositivoRechazado _ 0 "f" (by norm_num)

/-- C3: transferring a positive amount no greater than the source balance
between distinct accounts succeeds, moves exactly the amount from source to
destination, and appends exactly four history records: a withdrawal record and
a transfer-to record on the source, a deposit record and a transfer-from
record on the destination. -/
theorem transferenciaExitosa (origen destino : Cuenta) (m : ℚ) (f : Fecha)
    (_hnum : origen.numero ≠ destino.numero) (hm : 0 < m) (hs : m ≤ origen.saldo) :
    (origen.transferir destino m f).1 = none ∧
    (origen.transferir destino m f).2.1.saldo = origen.saldo - m ∧
    (origen.transferir destino m f).2.2.saldo = destino.saldo + m ∧
    (origen.transferir destino m f).2.1.historial = origen.historial ++
      [⟨f, "Retiro", .menos, m⟩, ⟨f, "Transferencia a " ++ destino.numero, .menos, m⟩] ∧
    (origen.transferir destino m f).2.2.historial = destino.historial ++
      [⟨f, "Depósito", .mas, m⟩, ⟨f, "Transferencia de " ++ origen.numero, .mas, m⟩] := by
  unfold Cuenta.transferir
  rw [retirar_ok origen m f hm hs, depositar_ok destino m f hm]
  refine ⟨rfl, rfl, rfl, by simp, by simp⟩

/-- Witness for C3: transfer 30 from a balance of 150 to a balance of 0. -/
theorem transferenciaExitosa_witness :
    (Cuenta.transferir ⟨"1000000001", "Ana Perez", .ahorro, 150, []⟩
        ⟨"1000000002", "Luis Ramos", .corriente, 0, []⟩ 30 "f").1 = none ∧
    (Cuenta.transferir ⟨"1000000001", "Ana Perez", .ahorro, 150, []⟩
        ⟨"1000000002", "Luis Ramos", .corriente, 0, []⟩ 30 "f").2.1.saldo = 150 - 30 ∧
    (Cuenta.transferir ⟨"1000000001", "Ana Perez", .ahorro, 150, []⟩
        ⟨"1000000002", "Luis Ramos", .corriente, 0, []⟩ 30 "f").2.2.saldo = 0 + 30 ∧
    (Cuenta.transferir ⟨"1000000001", "Ana Perez", .ahorro, 150, []⟩
        ⟨"1000000002", "Luis Ramos", .corriente, 0, []⟩ 30 "f").2.1.historial =
      [] ++ [⟨"f", "Retiro", .menos, 30⟩,
             ⟨"f", "Transferencia a " ++ "1000000002", .menos, 30⟩] ∧
    (Cuenta.transferir ⟨"1000000001", "Ana Perez", .ahorro, 150, []⟩
        ⟨"1000000002", "Luis Ramos", .corriente, 0, []⟩ 30 "f").2.2.historial =
      [] ++ [⟨"f", "Depósito", .mas, 30⟩,
             ⟨"f", "Transferencia de " ++ "1000000001", .mas, 30⟩] :=
  transferenciaExitosa _ _ 30 "f" (by decide) (by norm_num) (by norm_num)

/-- C7: account creation fails whenever the id is not exactly 10 digits, the
owner name is not at least two space-separated alphabetic words, the initial
balance is negative, or the id is already present — and on every such failure
the registry mapping is returned unchanged, so no existing account is
replaced. -/
theorem crearCuentaInvalidaSinEfecto (cuentas : Registro) (numero titular : String)
    (saldo : ℚ) (tipo : TipoCuenta)
    (h : numeroValido numero = false ∨ titularValido titular = false ∨
      saldo < 0 ∨ (dictFind cuentas numero).isSome = true) :
    (crearCuenta cuentas numero titular saldo tipo).1.isSome = true ∧
    (crearCuenta cuentas numero titular saldo tipo).2 = cuentas := by
  unfold crearCuenta
  split_ifs with h1 h2 h3 h4 h5 h6 <;> try exact ⟨rfl, rfl⟩
  rcases h with h | h | h | h
  · simp [h] at h3
  · simp [h] at h4
  · exact absurd h h5
  · simp [h] at h6

/-- Witness for C7: creating an account whose id is already registered. -/
theorem crearCuentaInvalidaSinEfecto_witness :
    (crearCuenta [("1000000001", ⟨"1000000001", "Ana Perez", .ahorro, 100, []⟩)]
      "1000000001" "Luis Ramos" 5 .corriente).1.isSome = true ∧
    (crearCuenta [("1000000001", ⟨"1000000001", "Ana Perez", .ahorro, 100, []⟩)]
      "1000000001" "Luis Ramos" 5 .corriente).2 =
      [("1000000001", ⟨"1000000001", "Ana Perez", .ahorro, 100, []⟩)] :=
  crearCuentaInvalidaSinEfecto _ _ _ 5 _ (Or.inr (Or.inr (Or.inr (by decide))))

/-- C8: the four ledger operations change only the balance and the history:
id, owner name, and account kind survive deposit, withdraw, both sides of a
transfer, and apply-interest unchanged. -/
theorem operacionesPreservanIdentidad (c destino : Cuenta) (m : ℚ) (f : Fecha) :
    ((c.depositar m f).2.numero = c.numero ∧ (c.depositar m f).2.titular = c.titular ∧
      (c.depositar m f).2.tipo = c.tipo) ∧
    ((c.retirar m f).2.numero = c.numero ∧ (c.retirar m f).2.titular = c.titular ∧
      (c.retirar m f).2.tipo = c.tipo) ∧
    ((c.transferir destino m f).2.1.numero = c.numero ∧
      (c.transferir destino m f).2.1.titular = c.titular ∧
      (c.transferir destino m f).2.1.tipo = c.tipo ∧
      (c.transferir destino m f).2.2.numero = destino.numero ∧
      (c.transferir destino m f).2.2.titular = destino.titular ∧
      (c.transferir destino m f).2.2.tipo = destino.tipo) ∧
    ((c.aplicarInteres f).numero = c.numero ∧ (c.aplicarInteres f).titular = c.titular ∧
      (c.aplicarInteres f).tipo = c.tipo) := by
  have hdep : ∀ a : Cuenta, (a.depositar m f).2.numero = a.numero ∧
      (a.depositar m f).2.titular = a.titular ∧ (a.depositar m f).2.tipo = a.tipo := by
    intro a
    unfold Cuenta.depositar
    split_ifs <;> exact ⟨rfl, rfl, rfl⟩
  have hret : ∀ a : Cuenta, (a.retirar m f).2.numero = a.numero ∧
      (a.retirar m f).2.titular = a.titular ∧ (a.retirar m f).2.tipo = a.tipo := by
    intro a
    unfold Cuenta.retirar
    split_ifs <;> exact ⟨rfl, rfl, rfl⟩
  have hint : (c.aplicarInteres f).numero = c.numero ∧
      (c.aplicarInteres f).titular = c.titular ∧ (c.aplicarInteres f).tipo = c.tipo := by
    unfold Cuenta.aplicarInteres
    cases c.tipo <;> exact ⟨rfl, rfl, rfl⟩
  refine ⟨hdep c, hret c, ?_, hint⟩
  unfold Cuenta.transferir
  rcases h1 : c.retirar m f with ⟨e1, o1⟩
  have ho1 : o1.numero = c.numero ∧ o1.titular = c.titular ∧ o1.tipo = c.tipo := by
    have := hret c
    rwa [h1] at this
  cases e1 with
  | some e => exact ⟨ho1.1, ho1.2.1, ho1.2.2, rfl, rfl, rfl⟩
  | none =>
    rcases h2 : destino.depositar m f with ⟨e2, d1⟩
    have hd1 : d1.numero = destino.numero ∧ d1.titular = destino.titular ∧
        d1.tipo = destino.tipo := by
      have := hdep destino
      rwa [h2] at this
    cases e2 with
    | some e => exact ⟨ho1.1, ho1.2.1, ho1.2.2, hd1.1, hd1.2.1, hd1.2.2⟩
    | none =>
      exact ⟨by simpa using ho1.1, by simpa using ho1.2.1, by simpa using ho1.2.2,
        by simpa using hd1.1, by simpa using hd1.2.1, by simpa using hd1.2.2⟩

/-- C9: a failed transfer leaves both accounts exactly as they were; in
particular the deposit leg cannot fail after a successful withdraw leg, since
deposit only rejects non-positive amounts and a successful withdraw already
guarantees the amount is positive, so a transfer never partially applies. -/
theorem transferenciaFallidaSinCambios (origen destino : Cuenta) (m : ℚ) (f : Fecha)
    (h : (origen.transferir destino m f).1.isSome = true) :
    (origen.transferir destino m f).2 = (origen, destino) := by
  unfold Cuenta.transferir at *
  rcases h1 : origen.retirar m f with ⟨e1, o1⟩
  cases e1 with
  | some e =>
    have ho1 : o1 = origen := by
      have : (origen.retirar m f).2 = origen :=
        retirar_error_sinCambio origen m f (by rw [h1]; rfl)
      rw [h1] at this
      exact this
    simp [ho1]
  | none =>
    have hm : 0 < m := retirar_ok_montoPos origen m f (by rw [h1])
    rw [h1, depositar_ok destino m f hm] at h
    simp at h

/-- Witness for C9: a transfer rejected for insufficient funds changes
neither account. -/
theorem transferenciaFallidaSinCambios_witness :
    (Cuenta.transferir ⟨"1000000001", "Ana Perez", .ahorro, 150, []⟩
        ⟨"1000000002", "Luis Ramos", .corriente, 0, []⟩ 200 "f").2 =
      (⟨"1000000001", "Ana Perez", .ahorro, 150, []⟩,
       ⟨"1000000002", "Luis Ramos", .corriente, 0, []⟩) :=
  transferenciaFallidaSinCambios _ _ 200 "f" (by
    norm_num [Cuenta.transferir, Cuenta.retirar])

theorem loadGo_some_ok (hist : String → List Transaccion) :
    ∀ (filas : List Fila) (c : Cuenta) (acc : Registro),
      cargaExitosa (loadGo hist filas (some c) acc) = true := by
  intro filas
  induction filas with
  | nil => intro c acc; rfl
  | cons fila rest ih =>
    intro c acc
    by_cases h1 : fila.tipo = "Ahorro"
    · simp only [loadGo, if_pos h1]
      exact ih _ _
    · by_cases h2 : fila.tipo = "Corriente"
      · simp only [loadGo, if_neg h1, if_pos h2]
        exact ih _ _
      · simp only [loadGo, if_neg h1, if_neg h2]
        exact ih _ _

/-- C10 counterexample: a stored row whose kind is neither "Ahorro" nor
"Corriente" does not make the load crash when it is preceded by a recognized
row — the leftover loop variable from the previous iteration is silently
re-inserted, so reconstruction completes without any unhandled error. -/
theorem cargaTipoDesconocidoNoLanza :
    (("Hipoteca" : String) ≠ "Ahorro" ∧ ("Hipoteca" : String) ≠ "Corriente") ∧
    cargaExitosa (loadAccountsFromDb (fun _ => [])
      [⟨"1000000001", "Ana Perez", 5, "Ahorro"⟩,
       ⟨"1000000002", "Luis Ramos", 3, "Hipoteca"⟩]) = true :=
  ⟨⟨by decide, by decide⟩, rfl⟩

/-- C10 amended: reconstruction crashes with the unbound-variable error
exactly when the stored rows are nonempty and the first row's kind is neither
"Ahorro" nor "Corriente" — equivalently, when an unrecognized row arrives
before any recognized one; in particular loading completes without error
whenever every stored kind is recognized. Moreover an unrecognized row
reached while the loop variable already holds an account does not raise: the
loop continues, re-inserting that leftover account (with the unrecognized
row's history rows appended to it) under the unrecognized row's id. -/
theorem cargaSegunPrimeraFila :
    (∀ (hist : String → List Transaccion) (filas : List Fila),
      cargaExitosa (loadAccountsFromDb hist filas) = false ↔
        ∃ fila rest, filas = fila :: rest ∧
          fila.tipo ≠ "Ahorro" ∧ fila.tipo ≠ "Corriente") ∧
    (∀ (hist : String → List Transaccion) (fila : Fila) (rest : List Fila)
        (c : Cuenta) (acc : Registro),
      fila.tipo ≠ "Ahorro" → fila.tipo ≠ "Corriente" →
      loadGo hist (fila :: rest) (some c) acc =
        loadGo hist rest
          (some { c with historial := c.historial ++ hist fila.numero })
          (dictInsert acc fila.numero
            { c with historial := c.historial ++ hist fila.numero })) := by
  constructor
  · intro hist filas
    constructor
    · intro h
      cases filas with
      | nil => simp [loadAccountsFromDb, loadGo, cargaExitosa] at h
      | cons fila rest =>
        by_cases h1 : fila.tipo = "Ahorro"
        · exfalso
          simp only [loadAccountsFromDb, loadGo, if_pos h1] at h
          rw [loadGo_some_ok] at h
          simp at h
        · by_cases h2 : fila.tipo = "Corriente"
          · exfalso
            simp only [loadAccountsFromDb, loadGo, if_neg h1, if_pos h2] at h
            rw [loadGo_some_ok] at h
            simp at h
          · exact ⟨fila, rest, rfl, h1, h2⟩
    · rintro ⟨fila, rest, rfl, h1, h2⟩
      simp [loadAccountsFromDb, loadGo, h1, h2, cargaExitosa]
  · intro hist fila rest c acc h1 h2
    simp only [loadGo, if_neg h1, if_neg h2]

/-- Witness for C10's amended statement: a lone unrecognized first row crashes
the load, and an unrecognized row reached with the loop variable bound to an
earlier account re-inserts that account under the new id instead of raising. -/
theorem cargaSegunPrimeraFila_witness :
    cargaExitosa (loadAccountsFromDb (fun _ => [])
      [⟨"1000000002", "Luis Ramos", 3, "Hipoteca"⟩]) = false ∧
    loadGo (fun _ => []) [⟨"1000000002", "Luis Ramos", 3, "Hipoteca"⟩]
        (some ⟨"1000000001", "Ana Perez", .ahorro, 5, []⟩) [] =
      loadGo (fun _ => []) []
        (some ⟨"1000000001", "Ana Perez", .ahorro, 5, []⟩)
        (dictInsert [] "1000000002" ⟨"1000000001", "Ana Perez", .ahorro, 5, []⟩) :=
  ⟨(cargaSegunPrimeraFila.1 _ _).mpr ⟨_, [], rfl, by decide, by decide⟩,
   cargaSegunPrimeraFila.2 _ _ [] _ [] (by decide) (by decide)⟩

end MiniBanco
